import Mathlib

/-
Shallow embedding of the Learner Modeling & Adaptation Engine of
src/Smart_Learning_System.py: the Classifier (classify_learner), the
Difficulty Predictor (predict_next_difficulty), the Content Adapter
(adapt_content), the Cohort Clusterer (cluster_learners) and the
Feedback Generator (generate_personalized_feedback), together with the
two history-mutation entry points of main (quiz completion and bulk
quiz-history import).

Python floats are embedded as exact rationals (ℚ); Python lists as
Lean lists (insertion order preserved); Python dicts of learners as
association lists in insertion order; Python strings as Lean strings.
-/

/-- One completed quiz attempt (the dict built at src lines 1429-1436 and
stored in quiz_history). -/
structure QuizRecord where
  accuracy : ℚ
  avg_time : ℚ
  hints_used : ℕ
  retries : ℕ
  date : String
  topic : String
deriving DecidableEq, Repr

/-- A learner profile dict (see the sample profiles at src lines 318-370):
ordered quiz history plus the stored classification label and the inert
presentation fields. -/
structure LearnerData where
  quiz_history : List QuizRecord
  engagement_score : ℕ
  learning_pace : String
  classification : String
  strengths : List String
  weaknesses : List String
deriving DecidableEq, Repr

/-- One question dict of the catalog; `hint` is optional because the source
reads it with dict.get and a default. -/
structure QuestionData where
  question : String
  options : List String
  correct : ℕ
  hint : Option String
  explanation : String
deriving DecidableEq, Repr

/-- np.mean of a list of numbers (the source only applies it to non-empty
lists; on [] this returns 0 by ℚ division-by-zero convention). -/
def npMean (l : List ℚ) : ℚ :=
  l.sum / (l.length : ℚ)

/-- classify_learner, src lines 618-635. -/
def classify_learner (learner_data : LearnerData) : String :=
  let quiz_history := learner_data.quiz_history
  if quiz_history = [] then "New Learner"
  else
    let avg_accuracy := npMean (quiz_history.map QuizRecord.accuracy)
    let avg_time := npMean (quiz_history.map QuizRecord.avg_time)
    let total_hints := (quiz_history.map QuizRecord.hints_used).sum
    let _total_retries := (quiz_history.map QuizRecord.retries).sum
    if avg_accuracy < 60 ∧ (avg_time > 70 ∨ total_hints > 5) then "Struggling Learner"
    else if avg_accuracy ≥ 85 ∧ avg_time < 35 ∧ total_hints = 0 then "Advanced Learner"
    else "Average Learner"

/-- predict_next_difficulty, src lines 667-683.  Python quiz_history[-3:]
is List.drop (length - 3). -/
def predict_next_difficulty (learner_data : LearnerData) : String :=
  let quiz_history := learner_data.quiz_history
  if quiz_history = [] then "easy"
  else
    let recent_performance :=
      if 3 ≤ quiz_history.length then quiz_history.drop (quiz_history.length - 3)
      else quiz_history
    let avg_accuracy := npMean (recent_performance.map QuizRecord.accuracy)
    let avg_time := npMean (recent_performance.map QuizRecord.avg_time)
    if avg_accuracy ≥ 90 ∧ avg_time < 35 then "hard"
    else if avg_accuracy ≥ 70 ∧ avg_time < 60 then "medium"
    else "easy"

/-- The adaptation dict returned by adapt_content. -/
structure Adaptations where
  difficulty : String
  content_format : String
  enable_challenge_mode : Bool
  provide_hints : Bool
  revision_needed : Bool
deriving DecidableEq, Repr

/-- adapt_content, src lines 687-706.  Python quiz_history[-1] is
List.getLast?. -/
def adapt_content (learner_data : LearnerData) : Adaptations :=
  let classification := learner_data.classification
  let quiz_history := learner_data.quiz_history
  let adaptations : Adaptations :=
    { difficulty := predict_next_difficulty learner_data
      content_format := if classification == "Struggling Learner" then "visual" else "text"
      enable_challenge_mode := classification == "Advanced Learner"
      provide_hints := classification != "Advanced Learner"
      revision_needed := false }
  match quiz_history.getLast? with
  | none => adaptations
  | some last =>
      if last.accuracy < 50 then
        { adaptations with revision_needed := true, difficulty := "easy" }
      else adaptations

/-- Python random.choice on a non-empty pool, modelled by an ambient pick
index reduced modulo the pool size. -/
def randomChoice (pick : ℕ) (messages : List String) : String :=
  messages.getD (pick % messages.length) ""

/-- generate_personalized_feedback, src lines 708-738.  The pick argument
stands for the state of Python random consumed by random.choice; the
outcome component never depends on it. -/
def generate_personalized_feedback (pick : ℕ) (question_data : QuestionData)
    (user_answer : ℕ) (correct_answer : ℕ) (learner_classification : String) :
    String × String :=
  let is_correct := user_answer == correct_answer
  if is_correct then
    let messages :=
      if learner_classification == "Advanced Learner" then
        ["Excellent! Ready for more challenges?",
         "Perfect! Your problem-solving skills are sharp.",
         "Outstanding! Keep pushing your limits."]
      else if learner_classification == "Average Learner" then
        ["Great job! You\x27re making solid progress.",
         "Well done! Your understanding is improving.",
         "Correct! Keep up the consistent work."]
      else
        ["Fantastic! See, you can do it! 🌟",
         "Wonderful! This is real progress!",
         "Yes! You\x27re getting stronger at this!"]
    (randomChoice pick messages, "success")
  else
    let hint := question_data.hint.getD "Try to break down the problem step by step."
    if learner_classification == "Struggling Learner" then
      ("Not quite right, but don\x27t give up! 💪 Here\x27s a hint: " ++ hint, "error")
    else
      ("Not correct. Think about: " ++ hint, "error")

/-- Quiz-completion mutation entry point, src lines 1438-1439: append the
new record to the history, then synchronously recompute the stored
classification by calling classify_learner on the updated profile. -/
def recordQuizCompletion (learner_data : LearnerData) (new_quiz_record : QuizRecord) :
    LearnerData :=
  let appended :=
    { learner_data with quiz_history := learner_data.quiz_history ++ [new_quiz_record] }
  { appended with classification := classify_learner appended }

/-- Bulk-import mutation entry point, src lines 1126-1130: extend the
history with the imported records, then synchronously recompute the stored
classification by calling classify_learner on the updated profile. -/
def importQuizHistoryRecords (learner_data : LearnerData) (history : List QuizRecord) :
    LearnerData :=
  let extended :=
    { learner_data with quiz_history := learner_data.quiz_history ++ history }
  { extended with classification := classify_learner extended }

/-- A per-learner feature vector: (mean accuracy, mean avg_time). -/
abbrev Feature := ℚ × ℚ

/-- Population variance of a list of numbers (np.var with ddof 0, as used
by sklearn StandardScaler). -/
def popVariance (l : List ℚ) : ℚ :=
  npMean (l.map (fun x => (x - npMean l) * (x - npMean l)))

/-- Squared Euclidean distance between two standardized points, expressed
on centered (not yet scaled) coordinates with per-dimension weights: for
the StandardScaler map x ↦ (x − μ)/σ applied per dimension, the squared
distance of the scaled images is Σ over dimensions of (p − q)²/σ², which
is the weighted squared distance below with weight 1/σ² per dimension.
Working on centered points with this metric keeps every quantity rational
while reproducing k-means on the scaled points exactly: the per-dimension
scaling is linear, so cluster means commute with it and nearest-center
comparisons agree. -/
def wdist2 (w : Feature) (p q : Feature) : ℚ :=
  w.1 * (p.1 - q.1) * (p.1 - q.1) + w.2 * (p.2 - q.2) * (p.2 - q.2)

/-- Modelled from the spec (§4.4 standardization step): the metric weight
of a dimension is 1/variance, with a zero variance replaced by weight 1
(sklearn replaces a zero standard deviation by 1). -/
def scalerWeights (pts : List Feature) : Feature :=
  let vx := popVariance (pts.map Prod.fst)
  let vy := popVariance (pts.map Prod.snd)
  (if vx = 0 then 1 else 1 / vx, if vy = 0 then 1 else 1 / vy)

/-- Center both feature dimensions at their population mean (the
translation part of StandardScaler). -/
def centerFeatures (pts : List Feature) : List Feature :=
  let mx := npMean (pts.map Prod.fst)
  let my := npMean (pts.map Prod.snd)
  pts.map (fun p => (p.1 - mx, p.2 - my))

/-- Squared distance from p to its nearest center (0 when there are no
centers; only used with at least one center). -/
def minDist2 (w : Feature) (centers : List Feature) (p : Feature) : ℚ :=
  match centers.map (fun c => wdist2 w p c) with
  | [] => 0
  | d :: ds => ds.foldl min d

/-- The data point farthest from the already chosen centers (the first
such point wins ties).  Deterministic rendering of the k-means++ rule that
each new center is a data point far from the chosen ones; in particular,
while distinct points remain, an already chosen point (distance 0) is
never chosen again. -/
def farthestPoint (w : Feature) (centers : List Feature) (pts : List Feature) : Feature :=
  match pts with
  | [] => (0, 0)
  | p :: ps =>
      ps.foldl (fun best q =>
        if minDist2 w centers best < minDist2 w centers q then q else best) p

/-- Grow the chosen centers one farthest point at a time. -/
def kmeansSeedsFrom (w : Feature) (pts : List Feature) : ℕ → List Feature → List Feature
  | 0, centers => centers
  | Nat.succ n, centers => kmeansSeedsFrom w pts n (centers ++ [farthestPoint w centers pts])

/-- Modelled from the spec (§4.4 centroid initialization): the seed
(sklearn random_state) picks the first center among the data points, and
every further center is the farthest data point from those already
chosen.  This deterministic farthest-point variant of k-means++ stands for
the best of the n_init random initializations kept by sklearn. -/
def kmeansSeeds (w : Feature) (seed : ℕ) (k : ℕ) (pts : List Feature) : List Feature :=
  match k, pts with
  | 0, _ => []
  | _, [] => []
  | Nat.succ k0, p :: ps =>
      let c0 := (p :: ps).getD (seed % (p :: ps).length) p
      kmeansSeedsFrom w (p :: ps) k0 [c0]

/-- Index of the nearest center (the first nearest wins ties), as in the
k-means assignment step. -/
def nearestIdx (w : Feature) (centers : List Feature) (p : Feature) : ℕ :=
  match centers.enum with
  | [] => 0
  | c :: cs =>
      (cs.foldl (fun best ic =>
        if wdist2 w p ic.2 < wdist2 w p best.2 then ic else best) c).1

/-- Mean of a cluster of feature points. -/
def meanPoint (pts : List Feature) : Feature :=
  (npMean (pts.map Prod.fst), npMean (pts.map Prod.snd))

/-- Recompute each centroid as the mean of the points assigned to it; a
centroid with no assigned points is kept unchanged. -/
def updateCenters (pts : List Feature) (labels : List ℕ) (centers : List Feature) :
    List Feature :=
  centers.enum.map (fun ic =>
    let assigned := ((pts.zip labels).filter (fun pl => pl.2 == ic.1)).map Prod.fst
    if assigned = [] then ic.2 else meanPoint assigned)

/-- Modelled from the spec (§4.4): Lloyd iteration — assign each point to
its nearest centroid, recompute centroids as cluster means, stop when the
centroids are stable or the iteration cap (the fuel) runs out. -/
def lloyd (w : Feature) (pts : List Feature) : ℕ → List Feature → List ℕ
  | 0, centers => pts.map (fun p => nearestIdx w centers p)
  | Nat.succ fuel, centers =>
      let labels := pts.map (fun p => nearestIdx w centers p)
      let centers2 := updateCenters pts labels centers
      if centers2 = centers then labels else lloyd w pts fuel centers2

/-- cluster_learners, src lines 637-665.  The sklearn calls
StandardScaler().fit_transform and KMeans(n_clusters=3, random_state=42,
n_init=10).fit_predict are external library code; they are modelled from
the spec (§4.4) by the standardized metric plus seeded Lloyd k-means
above, with sklearn's iteration cap of 300.  globalState stands for the
ambient Python random state a library call would consume when no seed is
fixed; the source constructs KMeans with random_state=42, so the seed
actually used ignores globalState. -/
def cluster_learners (globalState : ℕ) (learners_data : List (String × LearnerData)) :
    List (String × ℕ) :=
  if learners_data.length < 3 then []
  else
    let qualified := learners_data.filter (fun nd => !nd.2.quiz_history.isEmpty)
    let learner_names := qualified.map Prod.fst
    let features : List Feature := qualified.map (fun nd =>
      (npMean (nd.2.quiz_history.map QuizRecord.accuracy),
       npMean (nd.2.quiz_history.map QuizRecord.avg_time)))
    if 3 ≤ features.length then
      let random_state : Option ℕ := some 42
      let seed := random_state.getD globalState
      let w := scalerWeights features
      let features_scaled := centerFeatures features
      let clusters := lloyd w features_scaled 300 (kmeansSeeds w seed 3 features_scaled)
      learner_names.zip clusters
    else []

/- ===== Helper lemmas about means ===== -/

theorem mul_length_le_sum (l : List ℚ) (c : ℚ) (h : ∀ x ∈ l, c ≤ x) :
    c * l.length ≤ l.sum := by
  induction l with
  | nil => simp
  | cons a t ih =>
      have ha : c ≤ a := h a (by simp)
      have ht := ih (fun x hx => h x (by simp [hx]))
      simp only [List.length_cons, List.sum_cons]
      push_cast
      linarith

theorem sum_lt_mul_length (l : List ℚ) (c : ℚ) (hne : l ≠ []) (h : ∀ x ∈ l, x < c) :
    l.sum < c * l.length := by
  induction l with
  | nil => exact absurd rfl hne
  | cons a t ih =>
      have ha : a < c := h a (by simp)
      simp only [List.length_cons, List.sum_cons]
      rcases eq_or_ne t [] with ht | ht
      · subst ht; simpa using ha
      · have := ih ht (fun x hx => h x (by simp [hx]))
        push_cast
        linarith

theorem le_npMean (l : List ℚ) (c : ℚ) (hne : l ≠ []) (h : ∀ x ∈ l, c ≤ x) :
    c ≤ npMean l := by
  have hlen : 0 < (l.length : ℚ) := by
    have := List.length_pos.mpr hne
    exact_mod_cast this
  rw [npMean, le_div_iff₀ hlen]
  exact mul_length_le_sum l c h

theorem npMean_lt (l : List ℚ) (c : ℚ) (hne : l ≠ []) (h : ∀ x ∈ l, x < c) :
    npMean l < c := by
  have hlen : 0 < (l.length : ℚ) := by
    have := List.length_pos.mpr hne
    exact_mod_cast this
  rw [npMean, div_lt_iff₀ hlen]
  have := sum_lt_mul_length l c hne h
  linarith [this]

/- ===== C1 ===== -/

/-- C1: after either history-mutation entry point (appending the record
built at quiz completion, or extending the history by bulk import), the
stored classification field equals classify_learner applied to the updated
profile. -/
theorem C1_classification_recomputed (learner_data : LearnerData)
    (new_quiz_record : QuizRecord) (history : List QuizRecord) :
    (recordQuizCompletion learner_data new_quiz_record).classification =
      classify_learner (recordQuizCompletion learner_data new_quiz_record) ∧
    (importQuizHistoryRecords learner_data history).classification =
      classify_learner (importQuizHistoryRecords learner_data history) :=
  ⟨rfl, rfl⟩

/- ===== C2 ===== -/

/-- C2: any non-empty history with mean accuracy < 60 and more than 5 total
hints is classified Struggling Learner, whatever the mean avg_time is. -/
theorem C2_struggling_by_hints (learner_data : LearnerData)
    (hne : learner_data.quiz_history ≠ [])
    (hacc : npMean (learner_data.quiz_history.map QuizRecord.accuracy) < 60)
    (hhints : 5 < (learner_data.quiz_history.map QuizRecord.hints_used).sum) :
    classify_learner learner_data = "Struggling Learner" := by
  simp only [classify_learner]
  rw [if_neg hne, if_pos ⟨hacc, Or.inr hhints⟩]

def strugglingRecord : QuizRecord :=
  { accuracy := 45, avg_time := 85, hints_used := 8, retries := 3
    date := "2024-01-01", topic := "Algebra" }

def strugglingSample : LearnerData :=
  { quiz_history := [strugglingRecord], engagement_score := 45, learning_pace := "slow"
    classification := "Struggling Learner", strengths := [], weaknesses := ["Algebra"] }

theorem C2_witness : classify_learner strugglingSample = "Struggling Learner" :=
  C2_struggling_by_hints strugglingSample
    (by simp [strugglingSample])
    (by norm_num [strugglingSample, strugglingRecord, npMean])
    (by norm_num [strugglingSample, strugglingRecord])

/- ===== C3 ===== -/

/-- C3: any non-empty history in which every record has accuracy ≥ 85,
avg_time < 35 and no hints is classified Advanced Learner. -/
theorem C3_advanced_tier (learner_data : LearnerData)
    (hne : learner_data.quiz_history ≠ [])
    (h : ∀ q ∈ learner_data.quiz_history,
      85 ≤ q.accuracy ∧ q.avg_time < 35 ∧ q.hints_used = 0) :
    classify_learner learner_data = "Advanced Learner" := by
  have hmapne : learner_data.quiz_history.map QuizRecord.accuracy ≠ [] := by
    simpa using hne
  have hmapne2 : learner_data.quiz_history.map QuizRecord.avg_time ≠ [] := by
    simpa using hne
  have hacc : 85 ≤ npMean (learner_data.quiz_history.map QuizRecord.accuracy) := by
    refine le_npMean _ _ hmapne ?_
    intro x hx
    obtain ⟨q, hq, rfl⟩ := List.mem_map.mp hx
    exact (h q hq).1
  have htime : npMean (learner_data.quiz_history.map QuizRecord.avg_time) < 35 := by
    refine npMean_lt _ _ hmapne2 ?_
    intro x hx
    obtain ⟨q, hq, rfl⟩ := List.mem_map.mp hx
    exact (h q hq).2.1
  have hhint : (learner_data.quiz_history.map QuizRecord.hints_used).sum = 0 := by
    refine List.sum_eq_zero ?_
    intro x hx
    obtain ⟨q, hq, rfl⟩ := List.mem_map.mp hx
    exact (h q hq).2.2
  have hnotstrug :
      ¬ (npMean (learner_data.quiz_history.map QuizRecord.accuracy) < 60 ∧
        (npMean (learner_data.quiz_history.map QuizRecord.avg_time) > 70 ∨
          (learner_data.quiz_history.map QuizRecord.hints_used).sum > 5)) := by
    rintro ⟨hlt, -⟩
    linarith
  simp only [classify_learner]
  rw [if_neg hne, if_neg hnotstrug, if_pos ⟨hacc, htime, hhint⟩]

def advancedRecord1 : QuizRecord :=
  { accuracy := 92, avg_time := 28, hints_used := 0, retries := 0
    date := "2024-01-01", topic := "Algebra" }

def advancedRecord2 : QuizRecord :=
  { accuracy := 95, avg_time := 25, hints_used := 0, retries := 0
    date := "2024-01-02", topic := "Algebra" }

def advancedRecord3 : QuizRecord :=
  { accuracy := 94, avg_time := 26, hints_used := 0, retries := 0
    date := "2024-01-03", topic := "Algebra" }

def advancedSample : LearnerData :=
  { quiz_history := [advancedRecord1, advancedRecord2, advancedRecord3]
    engagement_score := 90, learning_pace := "fast"
    classification := "Advanced Learner", strengths := ["Algebra"], weaknesses := [] }

theorem C3_witness : classify_learner advancedSample = "Advanced Learner" :=
  C3_advanced_tier advancedSample
    (by simp [advancedSample])
    (by
      intro q hq
      simp only [advancedSample, List.mem_cons, List.not_mem_nil, or_false] at hq
      rcases hq with rfl | rfl | rfl <;>
        norm_num [advancedRecord1, advancedRecord2, advancedRecord3])

/- ===== C4 ===== -/

/-- The trailing window of at most 3 records: Python quiz_history[-3:]. -/
def lastWindow (quiz_history : List QuizRecord) : List QuizRecord :=
  quiz_history.drop (quiz_history.length - 3)

theorem recent_eq_lastWindow (quiz_history : List QuizRecord) :
    (if 3 ≤ quiz_history.length then quiz_history.drop (quiz_history.length - 3)
     else quiz_history) = lastWindow quiz_history := by
  unfold lastWindow
  split
  · rfl
  · rename_i hlt
    rw [Nat.sub_eq_zero_of_le (le_of_lt (Nat.lt_of_not_le hlt)), List.drop_zero]

theorem lastWindow_eq_nil_iff (quiz_history : List QuizRecord) :
    lastWindow quiz_history = [] ↔ quiz_history = [] := by
  unfold lastWindow
  rw [List.drop_eq_nil_iff, ← List.length_eq_zero]
  omega

/-- The body of the Difficulty Predictor as a function of the trailing
window alone. -/
def windowPredict (w : List QuizRecord) : String :=
  if w = [] then "easy"
  else if npMean (w.map QuizRecord.accuracy) ≥ 90 ∧ npMean (w.map QuizRecord.avg_time) < 35
    then "hard"
  else if npMean (w.map QuizRecord.accuracy) ≥ 70 ∧ npMean (w.map QuizRecord.avg_time) < 60
    then "medium"
  else "easy"

theorem predict_eq_windowPredict (learner_data : LearnerData) :
    predict_next_difficulty learner_data = windowPredict (lastWindow learner_data.quiz_history) := by
  simp only [predict_next_difficulty, windowPredict, recent_eq_lastWindow]
  rcases eq_or_ne learner_data.quiz_history [] with hd | hd
  · rw [if_pos hd, if_pos ((lastWindow_eq_nil_iff _).mpr hd)]
  · rw [if_neg hd, if_neg (fun hw => hd ((lastWindow_eq_nil_iff _).mp hw))]

/-- C4: the Difficulty Predictor depends only on the trailing window of at
most 3 records (two histories with equal trailing windows predict the same
difficulty), the empty history predicts easy, and on a non-empty history
the prediction is determined by the window means with thresholds 90/35 for
hard and 70/60 for medium, easy otherwise. -/
theorem C4_window_predictor (d1 d2 : LearnerData)
    (h : lastWindow d1.quiz_history = lastWindow d2.quiz_history) :
    predict_next_difficulty d1 = predict_next_difficulty d2 ∧
    (∀ d : LearnerData, d.quiz_history = [] → predict_next_difficulty d = "easy") ∧
    (∀ d : LearnerData, d.quiz_history ≠ [] →
      predict_next_difficulty d =
        if npMean ((lastWindow d.quiz_history).map QuizRecord.accuracy) ≥ 90 ∧
            npMean ((lastWindow d.quiz_history).map QuizRecord.avg_time) < 35 then "hard"
        else if npMean ((lastWindow d.quiz_history).map QuizRecord.accuracy) ≥ 70 ∧
            npMean ((lastWindow d.quiz_history).map QuizRecord.avg_time) < 60 then "medium"
        else "easy") := by
  refine ⟨?_, ?_, ?_⟩
  · rw [predict_eq_windowPredict, predict_eq_windowPredict, h]
  · intro d hd
    simp [predict_next_difficulty, hd]
  · intro d hd
    rw [predict_eq_windowPredict, windowPredict,
      if_neg (fun hw => hd ((lastWindow_eq_nil_iff _).mp hw))]

def hardRecord : QuizRecord :=
  { accuracy := 95, avg_time := 20, hints_used := 0, retries := 0
    date := "2024-01-05", topic := "Calculus" }

def slowRecord : QuizRecord :=
  { accuracy := 10, avg_time := 200, hints_used := 9, retries := 9
    date := "2024-01-01", topic := "Calculus" }

def longHistorySample : LearnerData :=
  { quiz_history := [slowRecord, hardRecord, hardRecord, hardRecord]
    engagement_score := 70, learning_pace := "fast"
    classification := "Average Learner", strengths := [], weaknesses := [] }

def shortHistorySample : LearnerData :=
  { quiz_history := [hardRecord, hardRecord, hardRecord]
    engagement_score := 70, learning_pace := "fast"
    classification := "Average Learner", strengths := [], weaknesses := [] }

theorem C4_witness :
    predict_next_difficulty longHistorySample = predict_next_difficulty shortHistorySample :=
  (C4_window_predictor longHistorySample shortHistorySample rfl).1

/- ===== C5 ===== -/

/-- C5: when the history is non-empty and its most recent record has
accuracy below 50, adapt_content reports revision_needed and forces
difficulty to easy, overriding the Difficulty Predictor; otherwise (empty
history or most recent accuracy at least 50) revision_needed is false and
difficulty is exactly the Difficulty Predictor output. -/
theorem C5_revision_override (learner_data : LearnerData) :
    ((∃ r, learner_data.quiz_history.getLast? = some r ∧ r.accuracy < 50) →
      (adapt_content learner_data).revision_needed = true ∧
      (adapt_content learner_data).difficulty = "easy") ∧
    ((∀ r, learner_data.quiz_history.getLast? = some r → 50 ≤ r.accuracy) →
      (adapt_content learner_data).revision_needed = false ∧
      (adapt_content learner_data).difficulty = predict_next_difficulty learner_data) := by
  cases hl : learner_data.quiz_history.getLast? with
  | none =>
      constructor
      · rintro ⟨r, hr, -⟩
        exact absurd hr (by simp)
      · intro _
        simp [adapt_content, hl]
  | some r =>
      constructor
      · rintro ⟨r2, hr2, hacc⟩
        obtain rfl : r = r2 := by injection hr2
        simp [adapt_content, hl, if_pos hacc]
      · intro hge
        have : ¬ r.accuracy < 50 := not_lt.mpr (hge r rfl)
        simp [adapt_content, hl, if_neg this]

def recentFailRecord : QuizRecord :=
  { accuracy := 49, avg_time := 30, hints_used := 1, retries := 0
    date := "2024-01-09", topic := "Geometry" }

def recentFailSample : LearnerData :=
  { quiz_history := [recentFailRecord], engagement_score := 60, learning_pace := "moderate"
    classification := "Average Learner", strengths := [], weaknesses := [] }

theorem C5_witness :
    (adapt_content recentFailSample).revision_needed = true ∧
    (adapt_content recentFailSample).difficulty = "easy" :=
  (C5_revision_override recentFailSample).1
    ⟨recentFailRecord, rfl, by norm_num [recentFailRecord]⟩

/- ===== C6 ===== -/

/-- C6: the Adaptation Config flags are determined by the stored tier:
content_format is visual exactly for Struggling Learner and text otherwise,
challenge mode exactly for Advanced Learner, and hints exactly for every
tier other than Advanced Learner. -/
theorem C6_tier_flags (learner_data : LearnerData) :
    ((adapt_content learner_data).content_format = "visual" ↔
      learner_data.classification = "Struggling Learner") ∧
    ((adapt_content learner_data).content_format = "text" ↔
      learner_data.classification ≠ "Struggling Learner") ∧
    ((adapt_content learner_data).enable_challenge_mode = true ↔
      learner_data.classification = "Advanced Learner") ∧
    ((adapt_content learner_data).provide_hints = true ↔
      learner_data.classification ≠ "Advanced Learner") := by
  have hfmt : (adapt_content learner_data).content_format =
      (if learner_data.classification == "Struggling Learner" then "visual" else "text") := by
    simp only [adapt_content]
    cases learner_data.quiz_history.getLast? with
    | none => rfl
    | some r => dsimp only; split <;> rfl
  have hch : (adapt_content learner_data).enable_challenge_mode =
      (learner_data.classification == "Advanced Learner") := by
    simp only [adapt_content]
    cases learner_data.quiz_history.getLast? with
    | none => rfl
    | some r => dsimp only; split <;> rfl
  have hh : (adapt_content learner_data).provide_hints =
      (learner_data.classification != "Advanced Learner") := by
    simp only [adapt_content]
    cases learner_data.quiz_history.getLast? with
    | none => rfl
    | some r => dsimp only; split <;> rfl
  refine ⟨?_, ?_, ?_, ?_⟩
  · rw [hfmt]
    rcases eq_or_ne learner_data.classification "Struggling Learner" with hc | hc <;>
      simp [hc]
  · rw [hfmt]
    rcases eq_or_ne learner_data.classification "Struggling Learner" with hc | hc <;>
      simp [hc]
  · rw [hch]
    simp
  · rw [hh]
    simp

/- ===== C7 ===== -/

/-- C7: whenever fewer than 3 learners have a non-empty quiz history (in
particular whenever the population has fewer than 3 learners), the Cohort
Clusterer returns the empty mapping instead of failing. -/
theorem C7_insufficient_population (globalState : ℕ)
    (learners_data : List (String × LearnerData))
    (h : (learners_data.filter (fun nd => !nd.2.quiz_history.isEmpty)).length < 3) :
    cluster_learners globalState learners_data = [] := by
  simp only [cluster_learners]
  split
  · rfl
  · split
    · rename_i h3
      rw [List.length_map] at h3
      omega
    · rfl

def cohortRecord : QuizRecord :=
  { accuracy := 80, avg_time := 40, hints_used := 1, retries := 0
    date := "2024-02-01", topic := "Algebra" }

def cohortMemberA : LearnerData :=
  { quiz_history := [cohortRecord], engagement_score := 55, learning_pace := "moderate"
    classification := "Average Learner", strengths := [], weaknesses := [] }

def cohortMemberB : LearnerData :=
  { quiz_history := [cohortRecord], engagement_score := 60, learning_pace := "moderate"
    classification := "Average Learner", strengths := [], weaknesses := [] }

def freshMember : LearnerData :=
  { quiz_history := [], engagement_score := 50, learning_pace := "moderate"
    classification := "New Learner", strengths := [], weaknesses := [] }

/-- Three learners, only two of which have a non-empty history. -/
def underPopulated : List (String × LearnerData) :=
  [("Dana", cohortMemberA), ("Evan", cohortMemberB), ("Fay", freshMember)]

theorem C7_witness : cluster_learners 0 underPopulated = [] :=
  C7_insufficient_population 0 underPopulated (by decide)

/- ===== C8 ===== -/

def aliceRecord : QuizRecord :=
  { accuracy := 95, avg_time := 20, hints_used := 0, retries := 0
    date := "2024-03-01", topic := "Algebra" }

def bobRecord : QuizRecord :=
  { accuracy := 94, avg_time := 22, hints_used := 0, retries := 0
    date := "2024-03-01", topic := "Algebra" }

def carolRecord : QuizRecord :=
  { accuracy := 40, avg_time := 90, hints_used := 6, retries := 2
    date := "2024-03-01", topic := "Algebra" }

def aliceProfile : LearnerData :=
  { quiz_history := [aliceRecord], engagement_score := 80, learning_pace := "fast"
    classification := "Advanced Learner", strengths := [], weaknesses := [] }

def bobProfile : LearnerData :=
  { quiz_history := [bobRecord], engagement_score := 78, learning_pace := "fast"
    classification := "Advanced Learner", strengths := [], weaknesses := [] }

def carolProfile : LearnerData :=
  { quiz_history := [carolRecord], engagement_score := 30, learning_pace := "slow"
    classification := "Struggling Learner", strengths := [], weaknesses := [] }

/-- The population of exactly 3 qualifying learners with feature pairs
(95,20), (94,22) and (40,90). -/
def clusterPopulation : List (String × LearnerData) :=
  [("Alice", aliceProfile), ("Bob", bobProfile), ("Carol", carolProfile)]

/-- One unfolding step of the Lloyd iteration. -/
theorem lloyd_succ (w : Feature) (pts : List Feature) (fuel : ℕ) (centers : List Feature) :
    lloyd w pts (fuel + 1) centers =
      (let labels := pts.map (fun p => nearestIdx w centers p)
       let centers2 := updateCenters pts labels centers
       if centers2 = centers then labels else lloyd w pts fuel centers2) := rfl

set_option maxHeartbeats 2000000 in
/-- Full evaluation of the Cohort Clusterer on clusterPopulation: with
exactly 3 qualifying learners and 3 clusters, k-means converges to the
discrete partition, every learner its own cluster, whatever the ambient
random state is. -/
theorem cluster_learners_on_clusterPopulation (globalState : ℕ) :
    cluster_learners globalState clusterPopulation =
      [("Alice", 0), ("Bob", 2), ("Carol", 1)] := by
  have h1 : cluster_learners globalState clusterPopulation =
      ["Alice", "Bob", "Carol"].zip
        (lloyd ((9 : ℚ)/5942, (3 : ℚ)/3176)
          [((56 : ℚ)/3, (-24 : ℚ)), ((53 : ℚ)/3, (-22 : ℚ)), ((-109 : ℚ)/3, (46 : ℚ))] 300
          [((56 : ℚ)/3, (-24 : ℚ)), ((-109 : ℚ)/3, (46 : ℚ)), ((53 : ℚ)/3, (-22 : ℚ))]) := by
    norm_num [cluster_learners, clusterPopulation, aliceProfile, bobProfile, carolProfile,
      aliceRecord, bobRecord, carolRecord, npMean, scalerWeights, popVariance,
      centerFeatures, kmeansSeeds, kmeansSeedsFrom, farthestPoint, minDist2, wdist2]
  have h2 : lloyd ((9 : ℚ)/5942, (3 : ℚ)/3176)
      [((56 : ℚ)/3, (-24 : ℚ)), ((53 : ℚ)/3, (-22 : ℚ)), ((-109 : ℚ)/3, (46 : ℚ))] 300
      [((56 : ℚ)/3, (-24 : ℚ)), ((-109 : ℚ)/3, (46 : ℚ)), ((53 : ℚ)/3, (-22 : ℚ))] =
      [0, 2, 1] := by
    rw [show (300 : ℕ) = 299 + 1 from rfl, lloyd_succ]
    norm_num [nearestIdx, updateCenters, meanPoint, npMean, wdist2, List.enum, List.enumFrom]
  rw [h1, h2]
  rfl

/-- C8 counterexample: on the population with feature pairs (95,20),
(94,22), (40,90) the two high-accuracy/low-time learners do NOT share a
cluster id — with exactly 3 qualifying learners and n_clusters fixed at 3,
every learner is its own cluster, so the claimed partition never occurs. -/
theorem C8_counterexample :
    ¬ ((cluster_learners 0 clusterPopulation).lookup "Alice" =
        (cluster_learners 0 clusterPopulation).lookup "Bob" ∧
       (cluster_learners 0 clusterPopulation).lookup "Alice" ≠
        (cluster_learners 0 clusterPopulation).lookup "Carol") := by
  rw [cluster_learners_on_clusterPopulation 0]
  decide

/-- C8 (amended): on that population the three learners receive pairwise
distinct cluster ids, and repeated invocations produce the identical
mapping. -/
theorem C8_degenerate_distinct (g1 g2 : ℕ) :
    (cluster_learners g1 clusterPopulation).lookup "Alice" ≠
      (cluster_learners g1 clusterPopulation).lookup "Bob" ∧
    (cluster_learners g1 clusterPopulation).lookup "Bob" ≠
      (cluster_learners g1 clusterPopulation).lookup "Carol" ∧
    (cluster_learners g1 clusterPopulation).lookup "Alice" ≠
      (cluster_learners g1 clusterPopulation).lookup "Carol" ∧
    cluster_learners g1 clusterPopulation = cluster_learners g2 clusterPopulation := by
  rw [cluster_learners_on_clusterPopulation g1, cluster_learners_on_clusterPopulation g2]
  refine ⟨by decide, by decide, by decide, rfl⟩

/- ===== C9 ===== -/

def sampleQuestion : QuestionData :=
  { question := "What is 2 + 3?", options := ["4", "5", "6", "7"], correct := 1
    hint := some "Count up from 2.", explanation := "2 + 3 = 5." }

/-- C9 counterexample: the outcome component of the feedback pair is never
the label claimed by the spec — at a concrete correct answer it is
"success" (not "correct"), and at a concrete wrong answer it is "error"
(not "incorrect"). -/
theorem C9_counterexample :
    (generate_personalized_feedback 0 sampleQuestion 1 1 "Average Learner").2 ≠ "correct" ∧
    (generate_personalized_feedback 0 sampleQuestion 0 1 "Average Learner").2 ≠ "incorrect" := by
  decide

/-- C9 (amended): the outcome component of the feedback pair is "success"
when the chosen option index equals the correct option index and "error"
otherwise, for every question, tier and random pick. -/
theorem C9_outcome_labels (pick : ℕ) (question_data : QuestionData)
    (user_answer : ℕ) (correct_answer : ℕ) (learner_classification : String) :
    (generate_personalized_feedback pick question_data user_answer correct_answer
      learner_classification).2 =
      if user_answer = correct_answer then "success" else "error" := by
  by_cases h : user_answer = correct_answer
  · simp [generate_personalized_feedback, h]
  · simp [generate_personalized_feedback, h]
    split <;> rfl

/- ===== C10 ===== -/

/-- C10: the Cohort Clusterer is deterministic — because KMeans is
constructed with the fixed random_state 42, two invocations on the same
population return the identical learner-to-cluster mapping regardless of
the ambient random state they run under. -/
theorem C10_cluster_deterministic (g1 g2 : ℕ)
    (learners_data : List (String × LearnerData)) :
    cluster_learners g1 learners_data = cluster_learners g2 learners_data := rfl
